import Mathlib

/-!
Verification development for the CH341-on-CH347 compatibility layer
(`ch341_compat.c`).  The C shim keeps a fixed-capacity per-device state
table, lazily resolves the target CH347 driver's symbols, and translates
each legacy CH341 entry point into calls of the target driver.

Shallow embedding conventions:
* `Binding` records the outcome of `LoadCH347DLL` (`loaded`, the
  `g_bInitialized` flag) together with the null/non-null status of every
  `fp_CH347*` function pointer the modelled entry points consult.
* `Target` is the target driver as a response oracle: one Lean function
  per `CH347*` entry point, giving the value the driver call returns.
  `C` `UCHAR` results and stores are represented by `% 256`.
* Every modelled public operation returns its C result together with the
  list of target-driver invocations it performed (`Event`s), and, when it
  touches the global per-device table, the updated `CompatState`.
* `HANDLE` is `Int`: `-1` is `INVALID_HANDLE_VALUE`, `0` is `NULL`.
-/

/-- `mCH341_MAX_NUMBER` from `ch341_compat.h`: capacity of the device table. -/
def mCH341_MAX_NUMBER : Nat := 16

/-- `IC_VER_CH341A` from `ch341_compat.h`. -/
def IC_VER_CH341A : Nat := 0x20

/-- `IC_VER_CH341A3` from `ch341_compat.h`. -/
def IC_VER_CH341A3 : Nat := 0x30

/-- One slot of the per-device global state:
`g_DeviceHandles[i]`, `g_DeviceNames[i]`, `g_StreamMode[i]`,
`g_SPIInitialized[i]`, `g_IntRoutines[i]`.  A `name` of `some i` stands
for the generated string `"CH347_%lu"`; callbacks are identified by an
abstract numeric token, `none` standing for the C `NULL` pointer. -/
structure Slot where
  handle : Option Int
  name : Option Nat
  streamMode : Nat
  spiInitialized : Bool
  intCallback : Option Nat
  deriving DecidableEq

/-- Process-start value of every slot (all globals zero-initialized). -/
def Slot.initial : Slot :=
  { handle := none, name := none, streamMode := 0
    spiInitialized := false, intCallback := none }

/-- The whole per-device table, indexed by device index. -/
structure CompatState where
  slots : Nat → Slot

/-- Table update at one index (array store in the C globals). -/
def CompatState.set (s : CompatState) (i : Nat) (x : Slot) : CompatState :=
  ⟨fun j => if j = i then x else s.slots j⟩

/-- Process-start state of the table. -/
def initState : CompatState := ⟨fun _ => Slot.initial⟩

/-- Outcome of the dynamic binding: `loaded` is what `LoadCH347DLL()`
returns (the cached `g_bInitialized`), and each `has*` field is the
non-nullness of the corresponding `fp_CH347*` pointer. -/
structure Binding where
  loaded : Bool
  hasOpenDevice : Bool
  hasCloseDevice : Bool
  hasGetChipType : Bool
  hasSetTimeout : Bool
  hasI2CSet : Bool
  hasStreamI2C : Bool
  hasSPIInit : Bool
  hasStreamSPI4 : Bool
  hasSPIWriteRead : Bool
  hasGPIOGet : Bool
  hasGPIOSet : Bool
  hasSetIntRoutine : Bool
  hasReadData : Bool
  hasWriteData : Bool
  deriving DecidableEq

/-- The target CH347 driver as a response oracle.  Each field gives the
return value of the corresponding driver call; `readDataAt` is indexed
additionally by the ordinal of the `CH347ReadData` call inside one shim
operation (the driver is stateful, so successive reads may differ):
`readDataAt idx k len = some got` means the `k`-th read succeeds and
reports `got` bytes, `none` means it fails. -/
structure Target where
  openDevice : Nat → Int
  closeDevice : Nat → Bool
  getChipType : Nat → Nat
  setTimeout : Nat → Nat → Nat → Bool
  i2cSet : Nat → Nat → Bool
  streamI2C : Nat → List Nat → Nat → Bool
  spiInit : Nat → Nat → Bool
  streamSPI4 : Nat → Nat → Nat → Bool
  spiWriteRead : Nat → Nat → Nat → Bool
  gpioGet : Nat → Option (Nat × Nat)
  gpioSet : Nat → Nat → Nat → Nat → Bool
  setIntRoutine : Nat → Bool → Bool
  writeData : Nat → Nat → Option Nat
  readDataAt : Nat → Nat → Nat → Option Nat

/-- One invocation of a target-driver function pointer, with the
arguments the shim passed. -/
inductive Event where
  | openDev (idx : Nat)
  | closeDev (idx : Nat)
  | getChipType (idx : Nat)
  | setTimeout (idx wt rt : Nat)
  | i2cSet (idx mode : Nat)
  | streamI2C (idx : Nat) (writeBuf : List Nat) (readLen : Nat)
  | spiInit (idx cs : Nat)
  | streamSPI4 (idx cs len : Nat)
  | spiWriteRead (idx cs len : Nat)
  | gpioGet (idx : Nat)
  | gpioSet (idx enable dirOut dataOut : Nat)
  | setIntRoutine (idx : Nat) (enabled : Bool)
  | writeData (idx len : Nat)
  | readData (idx len : Nat)
  deriving DecidableEq

/-- Is this event the SPI-initialization call (`fp_CH347SPI_Init`)? -/
def Event.isSpiInit : Event → Bool
  | .spiInit _ _ => true
  | _ => false

/-- `CH341OpenDevice` (ch341_compat.c:190-202): load check, capacity
check, pointer check, then the driver open; a handle that is neither
`INVALID_HANDLE_VALUE` nor `NULL` is recorded in the slot together with
the generated name. -/
def CH341OpenDevice (b : Binding) (t : Target) (s : CompatState) (iIndex : Nat) :
    Int × CompatState × List Event :=
  if !b.loaded then (-1, s, [])
  else if mCH341_MAX_NUMBER ≤ iIndex then (-1, s, [])
  else if !b.hasOpenDevice then (-1, s, [])
  else
    let h := t.openDevice iIndex
    if h != -1 && h != 0 then
      (h, s.set iIndex { s.slots iIndex with handle := some h, name := some iIndex },
        [Event.openDev iIndex])
    else (h, s, [Event.openDev iIndex])

/-- `CH341CloseDevice` (ch341_compat.c:204-212): capacity check, pointer
check, then the driver close (result ignored), clearing the handle and
the SPI-initialized flag.  The C function returns `VOID`. -/
def CH341CloseDevice (b : Binding) (_t : Target) (s : CompatState) (iIndex : Nat) :
    CompatState × List Event :=
  if mCH341_MAX_NUMBER ≤ iIndex then (s, [])
  else if !b.hasCloseDevice then (s, [])
  else
    (s.set iIndex { s.slots iIndex with handle := none, spiInitialized := false },
      [Event.closeDev iIndex])

/-- `CH341ResetDevice` (ch341_compat.c:234-243): capacity check, then
close followed by open; returns `h != INVALID_HANDLE_VALUE`. -/
def CH341ResetDevice (b : Binding) (t : Target) (s : CompatState) (iIndex : Nat) :
    Bool × CompatState × List Event :=
  if mCH341_MAX_NUMBER ≤ iIndex then (false, s, [])
  else
    let c := CH341CloseDevice b t s iIndex
    let o := CH341OpenDevice b t c.1 iIndex
    (o.1 != -1, o.2.1, c.2 ++ o.2.2)

/-- `CH341GetVerIC` (ch341_compat.c:301-317): returns `0` when the
library fails to load, `IC_VER_CH341A` when `fp_CH347GetChipType` is
unresolved, otherwise maps the driver's `UCHAR` chip type through the
fixed `switch`. -/
def CH341GetVerIC (b : Binding) (t : Target) (iIndex : Nat) : Nat × List Event :=
  if !b.loaded then (0, [])
  else if !b.hasGetChipType then (IC_VER_CH341A, [])
  else
    let chipType := t.getChipType iIndex % 256
    (if chipType = 0 then IC_VER_CH341A
     else if chipType = 1 then IC_VER_CH341A3
     else if chipType = 2 then IC_VER_CH341A3
     else if chipType = 3 then IC_VER_CH341A3
     else IC_VER_CH341A,
     [Event.getChipType iIndex])

/-- `CH341SetTimeout` (ch341_compat.c:327-332): load check, pointer
check, then a direct forward — note there is no index validation. -/
def CH341SetTimeout (b : Binding) (t : Target) (iIndex iWriteTimeout iReadTimeout : Nat) :
    Bool × List Event :=
  if !b.loaded then (false, [])
  else if !b.hasSetTimeout then (false, [])
  else (t.setTimeout iIndex iWriteTimeout iReadTimeout,
        [Event.setTimeout iIndex iWriteTimeout iReadTimeout])

/-- `CH341SetStream` (ch341_compat.c:360-376): load check, capacity
check, store the whole mode word in `g_StreamMode`, then forward the low
two bits to `fp_CH347I2C_Set` when that symbol resolved, else succeed. -/
def CH341SetStream (b : Binding) (t : Target) (s : CompatState) (iIndex iMode : Nat) :
    Bool × CompatState × List Event :=
  if !b.loaded then (false, s, [])
  else if mCH341_MAX_NUMBER ≤ iIndex then (false, s, [])
  else
    let s1 := s.set iIndex { s.slots iIndex with streamMode := iMode }
    let i2cSpeed := iMode &&& 0x03
    if b.hasI2CSet then (t.i2cSet iIndex i2cSpeed, s1, [Event.i2cSet iIndex i2cSpeed])
    else (true, s1, [])

/-- `CH341ReadI2C` (ch341_compat.c:393-406): one `CH347StreamI2C` call
with write buffer `[iDevice<<1, iAddr]` (both `UCHAR` stores, hence
`% 256`) and read length 1.  `oByteValid` models the `oByte` pointer
null check; the read byte lands in the caller's buffer and is not part
of the return value. -/
def CH341ReadI2C (b : Binding) (t : Target) (iIndex iDevice iAddr : Nat)
    (oByteValid : Bool) : Bool × List Event :=
  if !b.loaded then (false, [])
  else if !b.hasStreamI2C then (false, [])
  else if !oByteValid then (false, [])
  else
    let writeBuf := [2 * (iDevice % 256) % 256, iAddr % 256]
    (t.streamI2C iIndex writeBuf 1, [Event.streamI2C iIndex writeBuf 1])

/-- `CH341WriteI2C` (ch341_compat.c:408-421): one `CH347StreamI2C` call
with write buffer `[iDevice<<1, iAddr, iByte]` and read length 0. -/
def CH341WriteI2C (b : Binding) (t : Target) (iIndex iDevice iAddr iByte : Nat) :
    Bool × List Event :=
  if !b.loaded then (false, [])
  else if !b.hasStreamI2C then (false, [])
  else
    let writeBuf := [2 * (iDevice % 256) % 256, iAddr % 256, iByte % 256]
    (t.streamI2C iIndex writeBuf 0, [Event.streamI2C iIndex writeBuf 0])

/-- Data phase of `CH341StreamSPI4` (ch341_compat.c:461-467): prefer
`fp_CH347StreamSPI4`, fall back to `fp_CH347SPI_WriteRead`, else fail. -/
def spiDataPhase (b : Binding) (t : Target) (iIndex iChipSelect iLength : Nat) :
    Bool × List Event :=
  if b.hasStreamSPI4 then
    (t.streamSPI4 iIndex iChipSelect iLength, [Event.streamSPI4 iIndex iChipSelect iLength])
  else if b.hasSPIWriteRead then
    (t.spiWriteRead iIndex iChipSelect iLength, [Event.spiWriteRead iIndex iChipSelect iLength])
  else (false, [])

/-- `CH341StreamSPI4` (ch341_compat.c:447-468): load and capacity
checks; when the slot's `g_SPIInitialized` flag is clear, run
`InitSPIForCH341` (which fails without a call if `fp_CH347SPI_Init` is
null, ch341_compat.c:151) and set the flag only on success; then the
data phase. -/
def CH341StreamSPI4 (b : Binding) (t : Target) (s : CompatState)
    (iIndex iChipSelect iLength : Nat) : Bool × CompatState × List Event :=
  if !b.loaded then (false, s, [])
  else if mCH341_MAX_NUMBER ≤ iIndex then (false, s, [])
  else if (s.slots iIndex).spiInitialized then
    let d := spiDataPhase b t iIndex iChipSelect iLength
    (d.1, s, d.2)
  else if !b.hasSPIInit then (false, s, [])
  else if t.spiInit iIndex iChipSelect then
    let s1 := s.set iIndex { s.slots iIndex with spiInitialized := true }
    let d := spiDataPhase b t iIndex iChipSelect iLength
    (d.1, s1, Event.spiInit iIndex iChipSelect :: d.2)
  else (false, s, [Event.spiInit iIndex iChipSelect])

/-- `CH341GetInput` (ch341_compat.c:500-516): load, pointer and output
pointer checks; on a successful `CH347GPIO_Get` the `UCHAR` data vector
(`% 256`) is stored as the whole `ULONG` status. -/
def CH341GetInput (b : Binding) (t : Target) (iIndex : Nat) (statusValid : Bool) :
    Bool × Option Nat × List Event :=
  if !b.loaded then (false, none, [])
  else if !b.hasGPIOGet then (false, none, [])
  else if !statusValid then (false, none, [])
  else
    match t.gpioGet iIndex with
    | none => (false, none, [Event.gpioGet iIndex])
    | some (_, data) => (true, some (data % 256), [Event.gpioGet iIndex])

/-- `CH341SetOutput` (ch341_compat.c:523-544): load and pointer checks
(no index validation); bit 2 of `iEnable` gates the data byte, bit 3 the
direction byte; the enable vector sent to the driver is always `0xFF`. -/
def CH341SetOutput (b : Binding) (t : Target) (iIndex iEnable iSetDirOut iSetDataOut : Nat) :
    Bool × List Event :=
  if !b.loaded then (false, [])
  else if !b.hasGPIOSet then (false, [])
  else
    let dataOut := if iEnable &&& 0x04 ≠ 0 then iSetDataOut % 256 else 0
    let dirOut := if iEnable &&& 0x08 ≠ 0 then iSetDirOut % 256 else 0
    (t.gpioSet iIndex 0xFF dirOut dataOut, [Event.gpioSet iIndex 0xFF dirOut dataOut])

/-- `CH341SetIntRoutine` (ch341_compat.c:744-760): capacity check, load
check, record the callback in `g_IntRoutines`, then pointer check and
the driver call (enable when the callback is non-null, disable when it
is null). -/
def CH341SetIntRoutine (b : Binding) (t : Target) (s : CompatState)
    (iIndex : Nat) (iIntRoutine : Option Nat) : Bool × CompatState × List Event :=
  if mCH341_MAX_NUMBER ≤ iIndex then (false, s, [])
  else if !b.loaded then (false, s, [])
  else
    let s1 := s.set iIndex { s.slots iIndex with intCallback := iIntRoutine }
    if !b.hasSetIntRoutine then (false, s1, [])
    else (t.setIntRoutine iIndex iIntRoutine.isSome, s1,
          [Event.setIntRoutine iIndex iIntRoutine.isSome])

/-- Read loop of `CH341WriteRead` (ch341_compat.c:618-625): up to
`times` reads of `iReadStep` bytes, the `k`-th using response
`t.readDataAt iIndex k`; a failing read stops the loop (its driver call
still happened); successful reads accumulate the reported lengths. -/
def writeReadLoop (t : Target) (iIndex iReadStep : Nat) : Nat → Nat → Nat × List Event
  | 0, _ => (0, [])
  | times + 1, k =>
    match t.readDataAt iIndex k iReadStep with
    | none => (0, [Event.readData iIndex iReadStep])
    | some got =>
      let r := writeReadLoop t iIndex iReadStep times (k + 1)
      (got + r.1, Event.readData iIndex iReadStep :: r.2)

/-- `CH341WriteRead` (ch341_compat.c:598-630): load and pointer checks
(both `fp_CH347WriteData` and `fp_CH347ReadData` required); one write
phase when `iWriteLength > 0`, failing the whole call if it fails; then,
when the output arguments are usable, the read loop, storing the
accumulated total in `*oReadLength` and returning success. -/
def CH341WriteRead (b : Binding) (t : Target) (iIndex iWriteLength : Nat)
    (outValid : Bool) (iReadStep iReadTimes : Nat) :
    Bool × Option Nat × List Event :=
  if !b.loaded then (false, none, [])
  else if !(b.hasWriteData && b.hasReadData) then (false, none, [])
  else
    let writeEvs : List Event :=
      if 0 < iWriteLength then [Event.writeData iIndex iWriteLength] else []
    if 0 < iWriteLength ∧ t.writeData iIndex iWriteLength = none then
      (false, none, writeEvs)
    else if outValid = true ∧ 0 < iReadStep ∧ 0 < iReadTimes then
      let r := writeReadLoop t iIndex iReadStep iReadTimes 0
      (true, some r.1, writeEvs ++ r.2)
    else (true, none, writeEvs)

/-- A binding in which the load succeeded and every symbol resolved. -/
def bindAll : Binding :=
  { loaded := true, hasOpenDevice := true, hasCloseDevice := true
    hasGetChipType := true, hasSetTimeout := true, hasI2CSet := true
    hasStreamI2C := true, hasSPIInit := true, hasStreamSPI4 := true
    hasSPIWriteRead := true, hasGPIOGet := true, hasGPIOSet := true
    hasSetIntRoutine := true, hasReadData := true, hasWriteData := true }

/-- A binding in which `LoadCH347DLL` failed (no symbol available). -/
def bindNotLoaded : Binding :=
  { loaded := false, hasOpenDevice := false, hasCloseDevice := false
    hasGetChipType := false, hasSetTimeout := false, hasI2CSet := false
    hasStreamI2C := false, hasSPIInit := false, hasStreamSPI4 := false
    hasSPIWriteRead := false, hasGPIOGet := false, hasGPIOSet := false
    hasSetIntRoutine := false, hasReadData := false, hasWriteData := false }

/-- A loaded binding whose `CH347I2C_Set` symbol did not resolve. -/
def bindNoI2CSet : Binding := { bindAll with hasI2CSet := false }

/-- A loaded binding whose `CH347GetChipType` symbol did not resolve. -/
def bindNoChipType : Binding := { bindAll with hasGetChipType := false }

/-- A stub target driver: opens with handle 5, reports chip type 1
(CH347T), answers every configuration call with success, reads deliver
4 bytes each and the third read of an operation fails. -/
def stubTarget : Target :=
  { openDevice := fun _ => 5
    closeDevice := fun _ => true
    getChipType := fun _ => 1
    setTimeout := fun _ _ _ => true
    i2cSet := fun _ _ => true
    streamI2C := fun _ _ _ => true
    spiInit := fun _ _ => true
    streamSPI4 := fun _ _ _ => true
    spiWriteRead := fun _ _ _ => true
    gpioGet := fun _ => some (0, 0xAB)
    gpioSet := fun _ _ _ _ => true
    setIntRoutine := fun _ _ => true
    writeData := fun _ n => some n
    readDataAt := fun _ k _ => if k < 2 then some 4 else none }

/-- A stub target whose `CH347SPI_Init` call fails. -/
def stubSpiFail : Target := { stubTarget with spiInit := fun _ _ => false }

/-- A stub target whose open call returns the `NULL` handle. -/
def stubOpenNull : Target := { stubTarget with openDevice := fun _ => 0 }

/-- A stub target reporting an unrecognized chip type code. -/
def stubChip9 : Target := { stubTarget with getChipType := fun _ => 9 }

/-- A state whose slot 0 already has the SPI peripheral initialized. -/
def sSpiReady : CompatState :=
  initState.set 0 { Slot.initial with spiInitialized := true }

/-- Reading the slot just written. -/
theorem CompatState.slots_set_self (s : CompatState) (i : Nat) (x : Slot) :
    (s.set i x).slots i = x := by
  simp [CompatState.set]

/-- Writing the same slot twice keeps only the second write. -/
theorem CompatState.set_set (s : CompatState) (i : Nat) (a x : Slot) :
    (s.set i a).set i x = s.set i x := by
  show CompatState.mk _ = CompatState.mk _
  congr 1
  funext j
  by_cases h : j = i <;> simp [CompatState.set, h]

/-- Claim C1, counterexample: at the out-of-capacity index 16 with the
binding fully resolved, `CH341SetTimeout` does not return its failure
sentinel `FALSE`: it invokes the target driver's `CH347SetTimeout` with
the unvalidated index and returns the driver's `TRUE`. -/
theorem setTimeout_out_of_range_forwards :
    (CH341SetTimeout bindAll stubTarget 16 5 7).1 = true
  ∧ (CH341SetTimeout bindAll stubTarget 16 5 7).2 = [Event.setTimeout 16 5 7] := by
  constructor <;> rfl

/-- Claim C1, amended: every operation that consults or mutates the
per-device state table (open, close, reset, set-stream, SPI transfer,
set-interrupt) validates the index: for indices at or beyond
`mCH341_MAX_NUMBER` it returns its failure sentinel, performs no
target-driver invocation and leaves the table untouched. -/
theorem table_ops_fail_closed (b : Binding) (t : Target) (s : CompatState)
    (iIndex iMode cs len : Nat) (cb : Option Nat)
    (hidx : mCH341_MAX_NUMBER ≤ iIndex) :
    CH341OpenDevice b t s iIndex = (-1, s, [])
  ∧ CH341CloseDevice b t s iIndex = (s, [])
  ∧ CH341ResetDevice b t s iIndex = (false, s, [])
  ∧ CH341SetStream b t s iIndex iMode = (false, s, [])
  ∧ CH341StreamSPI4 b t s iIndex cs len = (false, s, [])
  ∧ CH341SetIntRoutine b t s iIndex cb = (false, s, []) := by
  refine ⟨?_, ?_, ?_, ?_, ?_, ?_⟩ <;>
    cases hl : b.loaded <;>
      simp [CH341OpenDevice, CH341CloseDevice, CH341ResetDevice, CH341SetStream,
            CH341StreamSPI4, CH341SetIntRoutine, hl, hidx]

/-- Claim C1, witness: the amended theorem at index 16. -/
theorem table_ops_fail_closed_witness :
    CH341OpenDevice bindAll stubTarget initState 16 = (-1, initState, [])
  ∧ CH341CloseDevice bindAll stubTarget initState 16 = (initState, [])
  ∧ CH341ResetDevice bindAll stubTarget initState 16 = (false, initState, [])
  ∧ CH341SetStream bindAll stubTarget initState 16 3 = (false, initState, [])
  ∧ CH341StreamSPI4 bindAll stubTarget initState 16 0 4 = (false, initState, [])
  ∧ CH341SetIntRoutine bindAll stubTarget initState 16 (some 7) = (false, initState, []) :=
  table_ops_fail_closed bindAll stubTarget initState 16 3 0 4 (some 7) (by decide)

/-- Claim C9: `CH341CloseDevice` is idempotent.  The C function returns
`VOID`, so a second call cannot report a failure; here we prove that the
second call reproduces the first call's table exactly, and that after
either call the slot is closed: handle cleared and `spi_initialized`
false.  The hypothesis that the close symbol resolved is the essential-
symbol invariant of `LoadCH347DLL` (ch341_compat.c:138). -/
theorem close_idempotent (b : Binding) (t : Target) (s : CompatState) (iIndex : Nat)
    (hidx : iIndex < mCH341_MAX_NUMBER) (hclose : b.hasCloseDevice = true) :
    (CH341CloseDevice b t (CH341CloseDevice b t s iIndex).1 iIndex).1
      = (CH341CloseDevice b t s iIndex).1
  ∧ ((CH341CloseDevice b t s iIndex).1.slots iIndex).handle = none
  ∧ ((CH341CloseDevice b t s iIndex).1.slots iIndex).spiInitialized = false := by
  have h16 : ¬ mCH341_MAX_NUMBER ≤ iIndex := Nat.not_le.mpr hidx
  refine ⟨?_, ?_, ?_⟩ <;>
    simp [CH341CloseDevice, h16, hclose, CompatState.slots_set_self, CompatState.set_set]

/-- Claim C9, witness: idempotence of close at slot 3. -/
theorem close_idempotent_witness :
    (CH341CloseDevice bindAll stubTarget (CH341CloseDevice bindAll stubTarget initState 3).1 3).1
      = (CH341CloseDevice bindAll stubTarget initState 3).1
  ∧ ((CH341CloseDevice bindAll stubTarget initState 3).1.slots 3).handle = none
  ∧ ((CH341CloseDevice bindAll stubTarget initState 3).1.slots 3).spiInitialized = false :=
  close_idempotent bindAll stubTarget initState 3 (by decide) (by decide)

/-- Claim C10: with the library loaded but `CH347I2C_Set` unresolved,
`CH341SetStream` on a valid index stores the full mode word in the
slot's `stream_mode` field, returns `TRUE`, and performs no target
driver invocation. -/
theorem setStream_no_i2c_symbol (b : Binding) (t : Target) (s : CompatState)
    (iIndex iMode : Nat)
    (hload : b.loaded = true) (hno : b.hasI2CSet = false)
    (hidx : iIndex < mCH341_MAX_NUMBER) :
    CH341SetStream b t s iIndex iMode
      = (true, s.set iIndex { s.slots iIndex with streamMode := iMode }, [])
  ∧ ((CH341SetStream b t s iIndex iMode).2.1.slots iIndex).streamMode = iMode := by
  have h16 : ¬ mCH341_MAX_NUMBER ≤ iIndex := Nat.not_le.mpr hidx
  refine ⟨?_, ?_⟩ <;>
    simp [CH341SetStream, hload, hno, h16, CompatState.slots_set_self]

/-- Claim C10, witness: mode word 0xCF stored whole at slot 2. -/
theorem setStream_no_i2c_symbol_witness :
    CH341SetStream bindNoI2CSet stubTarget initState 2 0xCF
      = (true, initState.set 2 { initState.slots 2 with streamMode := 0xCF }, [])
  ∧ ((CH341SetStream bindNoI2CSet stubTarget initState 2 0xCF).2.1.slots 2).streamMode = 0xCF :=
  setStream_no_i2c_symbol bindNoI2CSet stubTarget initState 2 0xCF rfl rfl (by decide)

/-- Claim C3, counterexample: when the target library fails to load,
`CH341GetVerIC` returns `0`, not the conservative default
`IC_VER_CH341A = 0x20` the claim promises for a binding that is not
ready. -/
theorem getVerIC_not_loaded_returns_zero :
    CH341GetVerIC bindNotLoaded stubTarget 0 = (0, [])
  ∧ (0 : Nat) ≠ IC_VER_CH341A := by
  constructor
  · rfl
  · decide

/-- Claim C3, amended: `CH341GetVerIC` maps the chip-type byte through
the fixed lookup — `0 ↦ IC_VER_CH341A`, `1, 2, 3 ↦ IC_VER_CH341A3`, any
other byte to the conservative default `IC_VER_CH341A`; with the library
loaded but the chip-type symbol unresolved it returns `IC_VER_CH341A`
without a driver call; but when the library itself fails to load it
returns `0`, a failure value, not the conservative default. -/
theorem getVerIC_lookup (bNo bSym b : Binding) (t t0 t1 t2 t3 tX : Target) (iIndex : Nat)
    (hbNo : bNo.loaded = false)
    (hsl : bSym.loaded = true) (hsg : bSym.hasGetChipType = false)
    (hbl : b.loaded = true) (hbg : b.hasGetChipType = true)
    (h0 : t0.getChipType iIndex % 256 = 0)
    (h1 : t1.getChipType iIndex % 256 = 1)
    (h2 : t2.getChipType iIndex % 256 = 2)
    (h3 : t3.getChipType iIndex % 256 = 3)
    (hX0 : tX.getChipType iIndex % 256 ≠ 0)
    (hX1 : tX.getChipType iIndex % 256 ≠ 1)
    (hX2 : tX.getChipType iIndex % 256 ≠ 2)
    (hX3 : tX.getChipType iIndex % 256 ≠ 3) :
    CH341GetVerIC bNo t iIndex = (0, [])
  ∧ CH341GetVerIC bSym t iIndex = (IC_VER_CH341A, [])
  ∧ (CH341GetVerIC b t0 iIndex).1 = IC_VER_CH341A
  ∧ (CH341GetVerIC b t1 iIndex).1 = IC_VER_CH341A3
  ∧ (CH341GetVerIC b t2 iIndex).1 = IC_VER_CH341A3
  ∧ (CH341GetVerIC b t3 iIndex).1 = IC_VER_CH341A3
  ∧ (CH341GetVerIC b tX iIndex).1 = IC_VER_CH341A := by
  refine ⟨?_, ?_, ?_, ?_, ?_, ?_, ?_⟩ <;>
    simp [CH341GetVerIC, hbNo, hsl, hsg, hbl, hbg, h0, h1, h2, h3, hX0, hX1, hX2, hX3]

/-- Claim C3, witness: the lookup at chip types 0, 1, 2, 3 and the
unrecognized code 9, plus the two binding-degradation cases. -/
theorem getVerIC_lookup_witness :
    CH341GetVerIC bindNotLoaded stubTarget 0 = (0, [])
  ∧ CH341GetVerIC bindNoChipType stubTarget 0 = (IC_VER_CH341A, [])
  ∧ (CH341GetVerIC bindAll { stubTarget with getChipType := fun _ => 0 } 0).1 = IC_VER_CH341A
  ∧ (CH341GetVerIC bindAll { stubTarget with getChipType := fun _ => 1 } 0).1 = IC_VER_CH341A3
  ∧ (CH341GetVerIC bindAll { stubTarget with getChipType := fun _ => 2 } 0).1 = IC_VER_CH341A3
  ∧ (CH341GetVerIC bindAll { stubTarget with getChipType := fun _ => 3 } 0).1 = IC_VER_CH341A3
  ∧ (CH341GetVerIC bindAll stubChip9 0).1 = IC_VER_CH341A :=
  getVerIC_lookup bindNotLoaded bindNoChipType bindAll stubTarget
    { stubTarget with getChipType := fun _ => 0 }
    { stubTarget with getChipType := fun _ => 1 }
    { stubTarget with getChipType := fun _ => 2 }
    { stubTarget with getChipType := fun _ => 3 }
    stubChip9 0 rfl rfl rfl rfl rfl rfl rfl rfl rfl (by decide) (by decide) (by decide) (by decide)

/-- Claim C5, counterexample: at the valid index 0, with the target
library failing to load, `CH341SetIntRoutine` returns `FALSE` without
recording the callback — the call's outcome is a failure and the slot's
`int_callback` field is left empty, refuting "records the callback
regardless of whether the call's overall outcome is success or
failure". -/
theorem setIntRoutine_not_loaded_drops_callback :
    (CH341SetIntRoutine bindNotLoaded stubTarget initState 0 (some 7)).1 = false
  ∧ ((CH341SetIntRoutine bindNotLoaded stubTarget initState 0 (some 7)).2.1.slots 0).intCallback
      = none
  ∧ (none : Option Nat) ≠ some 7 := by
  refine ⟨rfl, rfl, by decide⟩

/-- Claim C5, amended: for every valid index and every callback argument
(including the empty callback), provided the target library load
succeeded, `CH341SetIntRoutine` records the callback argument in the
slot's `int_callback` field regardless of the call's overall outcome —
in particular even when the target's interrupt symbol is unresolved (the
call then fails) or the target call itself fails; when the library load
fails, the callback is not recorded. -/
theorem setIntRoutine_records_callback (b : Binding) (t : Target) (s : CompatState)
    (iIndex : Nat) (cb : Option Nat)
    (hidx : iIndex < mCH341_MAX_NUMBER) (hload : b.loaded = true) :
    ((CH341SetIntRoutine b t s iIndex cb).2.1.slots iIndex).intCallback = cb := by
  have h16 : ¬ mCH341_MAX_NUMBER ≤ iIndex := Nat.not_le.mpr hidx
  by_cases hir : b.hasSetIntRoutine <;>
    simp [CH341SetIntRoutine, h16, hload, hir, CompatState.slots_set_self]

/-- Claim C5, witness: the empty callback is recorded at slot 1 even
though the target's interrupt symbol is missing (the call fails). -/
theorem setIntRoutine_records_callback_witness :
    ((CH341SetIntRoutine { bindAll with hasSetIntRoutine := false }
        stubTarget initState 1 none).2.1.slots 1).intCallback = none :=
  setIntRoutine_records_callback { bindAll with hasSetIntRoutine := false }
    stubTarget initState 1 none (by decide) rfl

/-- Claim C4: with the binding loaded and `CH347StreamI2C` resolved,
`CH341ReadI2C` issues exactly one streaming call, with write buffer
`[iDevice<<1, iAddr]` and read length 1, and `CH341WriteI2C` issues
exactly one streaming call, with write buffer `[iDevice<<1, iAddr,
iByte]` and read length 0; each returns the streaming call's result.
The byte hypotheses express the C `UCHAR` ranges (the device address is
7-bit, so the `<<1` store does not truncate). -/
theorem i2c_byte_helpers (b : Binding) (t : Target) (iIndex iDevice iAddr iByte : Nat)
    (hload : b.loaded = true) (hsi : b.hasStreamI2C = true)
    (hdev : iDevice < 128) (haddr : iAddr < 256) (hval : iByte < 256) :
    CH341ReadI2C b t iIndex iDevice iAddr true
      = (t.streamI2C iIndex [2 * iDevice, iAddr] 1,
         [Event.streamI2C iIndex [2 * iDevice, iAddr] 1])
  ∧ CH341WriteI2C b t iIndex iDevice iAddr iByte
      = (t.streamI2C iIndex [2 * iDevice, iAddr, iByte] 0,
         [Event.streamI2C iIndex [2 * iDevice, iAddr, iByte] 0]) := by
  have hd : iDevice % 256 = iDevice := Nat.mod_eq_of_lt (by omega)
  have hd2 : 2 * iDevice % 256 = 2 * iDevice := Nat.mod_eq_of_lt (by omega)
  have ha : iAddr % 256 = iAddr := Nat.mod_eq_of_lt haddr
  have hv : iByte % 256 = iByte := Nat.mod_eq_of_lt hval
  refine ⟨?_, ?_⟩ <;>
    simp [CH341ReadI2C, CH341WriteI2C, hload, hsi, hd, hd2, ha, hv]

/-- Claim C4, witness: device 0x50, register 0x10, value 0xAB. -/
theorem i2c_byte_helpers_witness :
    CH341ReadI2C bindAll stubTarget 0 0x50 0x10 true
      = (stubTarget.streamI2C 0 [2 * 0x50, 0x10] 1,
         [Event.streamI2C 0 [2 * 0x50, 0x10] 1])
  ∧ CH341WriteI2C bindAll stubTarget 0 0x50 0x10 0xAB
      = (stubTarget.streamI2C 0 [2 * 0x50, 0x10, 0xAB] 0,
         [Event.streamI2C 0 [2 * 0x50, 0x10, 0xAB] 0]) :=
  i2c_byte_helpers bindAll stubTarget 0 0x50 0x10 0xAB rfl rfl
    (by decide) (by decide) (by decide)

/-- Claim C8: whenever `CH341GetInput` succeeds, the status it stores is
exactly the target-reported 8-bit data byte — one `CH347GPIO_Get` call,
status `data % 256`, and in particular every bit at position 8 or above
is zero (`< 2^8`), for every data byte the target reports. -/
theorem getInput_status_byte (b : Binding) (t : Target) (iIndex dir data : Nat)
    (hload : b.loaded = true) (hg : b.hasGPIOGet = true)
    (hget : t.gpioGet iIndex = some (dir, data)) :
    CH341GetInput b t iIndex true = (true, some (data % 256), [Event.gpioGet iIndex])
  ∧ data % 256 < 2 ^ 8 := by
  refine ⟨?_, ?_⟩
  · simp [CH341GetInput, hload, hg, hget]
  · exact Nat.mod_lt _ (by decide)

/-- Claim C8, witness: the stub reports data byte 0xAB; the stored
status is 0xAB and is below 2^8. -/
theorem getInput_status_byte_witness :
    CH341GetInput bindAll stubTarget 0 true = (true, some (0xAB % 256), [Event.gpioGet 0])
  ∧ (0xAB : Nat) % 256 < 2 ^ 8 :=
  getInput_status_byte bindAll stubTarget 0 0 0xAB rfl rfl rfl

/-- Claim C2: SPI lazy initialization.  (1) A close-then-open leaves the
slot's `spi_initialized` flag false, so a freshly opened slot is
uninitialized.  (2) On such a slot the first `CH341StreamSPI4` performs
exactly one `CH347SPI_Init` call, placed before the data-phase calls
(which contain no initialization), and sets the flag.  (3) On a slot
whose flag is already set, a transfer performs zero initialization calls
and leaves the table unchanged.  (4) If the initialization call fails,
the transfer returns `FALSE`, performs no data call, and leaves the flag
false, so a later transfer retries.  `hclose` is the essential-symbol
invariant of `LoadCH347DLL` (ch341_compat.c:138). -/
theorem spi_lazy_init (b : Binding) (t tf : Target) (s sReady : CompatState)
    (iIndex cs len cs2 len2 : Nat)
    (hidx : iIndex < mCH341_MAX_NUMBER)
    (hload : b.loaded = true) (hclose : b.hasCloseDevice = true)
    (hspi : b.hasSPIInit = true)
    (hfresh : (s.slots iIndex).spiInitialized = false)
    (hok : t.spiInit iIndex cs = true)
    (hfail : tf.spiInit iIndex cs = false)
    (hready : (sReady.slots iIndex).spiInitialized = true) :
    (((CH341OpenDevice b t (CH341CloseDevice b t s iIndex).1 iIndex).2.1.slots
        iIndex).spiInitialized = false)
  ∧ ((CH341StreamSPI4 b t s iIndex cs len).2.2
        = Event.spiInit iIndex cs :: (spiDataPhase b t iIndex cs len).2
     ∧ ((CH341StreamSPI4 b t s iIndex cs len).2.1.slots iIndex).spiInitialized = true
     ∧ (spiDataPhase b t iIndex cs len).2.all (fun e => !e.isSpiInit) = true)
  ∧ ((CH341StreamSPI4 b t sReady iIndex cs2 len2).2.2.all (fun e => !e.isSpiInit) = true
     ∧ (CH341StreamSPI4 b t sReady iIndex cs2 len2).2.1 = sReady)
  ∧ CH341StreamSPI4 b tf s iIndex cs len = (false, s, [Event.spiInit iIndex cs]) := by
  have h16 : ¬ mCH341_MAX_NUMBER ≤ iIndex := Nat.not_le.mpr hidx
  refine ⟨?_, ⟨?_, ?_, ?_⟩, ⟨?_, ?_⟩, ?_⟩
  · by_cases ho : b.hasOpenDevice <;>
      simp [CH341CloseDevice, CH341OpenDevice, h16, hload, hclose, ho,
            CompatState.slots_set_self] <;>
      split <;> simp [CompatState.slots_set_self]
  · simp [CH341StreamSPI4, h16, hload, hfresh, hspi, hok]
  · simp [CH341StreamSPI4, h16, hload, hfresh, hspi, hok, CompatState.slots_set_self]
  · by_cases h1 : b.hasStreamSPI4 <;> by_cases h2 : b.hasSPIWriteRead <;>
      simp [spiDataPhase, h1, h2, Event.isSpiInit]
  · have : (CH341StreamSPI4 b t sReady iIndex cs2 len2).2.2
        = (spiDataPhase b t iIndex cs2 len2).2 := by
      simp [CH341StreamSPI4, h16, hload, hready]
    rw [this]
    by_cases h1 : b.hasStreamSPI4 <;> by_cases h2 : b.hasSPIWriteRead <;>
      simp [spiDataPhase, h1, h2, Event.isSpiInit]
  · simp [CH341StreamSPI4, h16, hload, hready]
  · simp [CH341StreamSPI4, h16, hload, hfresh, hspi, hfail]

/-- Claim C2, witness: slot 0 fresh, successful and failing stub
initializations. -/
theorem spi_lazy_init_witness :
    ((CH341StreamSPI4 bindAll stubTarget initState 0 0 4).2.2
        = Event.spiInit 0 0 :: (spiDataPhase bindAll stubTarget 0 0 4).2)
  ∧ CH341StreamSPI4 bindAll stubSpiFail initState 0 0 4
        = (false, initState, [Event.spiInit 0 0]) :=
  ⟨(spi_lazy_init bindAll stubTarget stubSpiFail initState sSpiReady 0 0 4 1 2
      (by decide) rfl rfl rfl rfl rfl rfl (by decide)).2.1.1,
   (spi_lazy_init bindAll stubTarget stubSpiFail initState sSpiReady 0 0 4 1 2
      (by decide) rfl rfl rfl rfl rfl rfl (by decide)).2.2.2⟩

/-- Claim C6: `CH341WriteRead` with `read_step = 4`, `read_times = 3`,
against a target whose first two reads deliver 4 bytes and whose third
read fails: one write phase, three read invocations, early stop on the
failing third read, reported total of 8 bytes, and overall success. -/
theorem writeRead_partial (b : Binding) (t : Target) (iIndex iWriteLength w : Nat)
    (hload : b.loaded = true) (hwd : b.hasWriteData = true) (hrd : b.hasReadData = true)
    (hwl : 0 < iWriteLength)
    (hw : t.writeData iIndex iWriteLength = some w)
    (hr0 : t.readDataAt iIndex 0 4 = some 4)
    (hr1 : t.readDataAt iIndex 1 4 = some 4)
    (hr2 : t.readDataAt iIndex 2 4 = none) :
    CH341WriteRead b t iIndex iWriteLength true 4 3
      = (true, some 8,
         [Event.writeData iIndex iWriteLength,
          Event.readData iIndex 4, Event.readData iIndex 4, Event.readData iIndex 4]) := by
  have hloop : writeReadLoop t iIndex 4 3 0
      = (8, [Event.readData iIndex 4, Event.readData iIndex 4, Event.readData iIndex 4]) := by
    show writeReadLoop t iIndex 4 (2 + 1) 0 = _
    rw [writeReadLoop, hr0]
    show (4 + (writeReadLoop t iIndex 4 (1 + 1) 1).1, _) = _
    rw [writeReadLoop, hr1]
    show (4 + (4 + (writeReadLoop t iIndex 4 (0 + 1) 2).1), _) = _
    rw [writeReadLoop, hr2]
    rfl
  simp [CH341WriteRead, hload, hwd, hrd, hwl, hw, hloop]

/-- Claim C6, witness: the stub target delivers 4 bytes on reads 0 and 1
and fails read 2; the call reports total 8 and success. -/
theorem writeRead_partial_witness :
    CH341WriteRead bindAll stubTarget 0 5 true 4 3
      = (true, some 8,
         [Event.writeData 0 5, Event.readData 0 4, Event.readData 0 4, Event.readData 0 4]) :=
  writeRead_partial bindAll stubTarget 0 5 5 rfl rfl rfl (by decide) rfl
    (by decide) (by decide) (by decide)

/-- Claim C7, counterexample: when the target's open call returns the
`NULL` handle, `CH341ResetDevice` reports success (`0 !=
INVALID_HANDLE_VALUE`) while the reopened slot is left closed (no
recorded handle), refuting "returns success iff the reopened slot ends
up open with a valid recorded handle". -/
theorem reset_null_handle_reports_success :
    (CH341ResetDevice bindAll stubOpenNull initState 3).1 = true
  ∧ ((CH341ResetDevice bindAll stubOpenNull initState 3).2.1.slots 3).handle = none := by
  exact ⟨rfl, rfl⟩

/-- Claim C7, amended: for every valid index, `CH341ResetDevice` is
exactly a close of that index followed by an open of that index (same
resulting table, driver trace `[close, open]`), and it returns success
iff the reopen call's returned handle differs from
`INVALID_HANDLE_VALUE`; the slot is recorded open with the returned
handle only when that handle is additionally non-`NULL`. -/
theorem reset_close_then_open (b : Binding) (t : Target) (s : CompatState) (iIndex : Nat)
    (hidx : iIndex < mCH341_MAX_NUMBER) (hload : b.loaded = true)
    (hopen : b.hasOpenDevice = true) (hclose : b.hasCloseDevice = true) :
    (CH341ResetDevice b t s iIndex).1 = (t.openDevice iIndex != -1)
  ∧ (CH341ResetDevice b t s iIndex).2.1
      = (CH341OpenDevice b t (CH341CloseDevice b t s iIndex).1 iIndex).2.1
  ∧ (CH341ResetDevice b t s iIndex).2.2 = [Event.closeDev iIndex, Event.openDev iIndex]
  ∧ ((CH341ResetDevice b t s iIndex).2.1.slots iIndex).handle
      = (if t.openDevice iIndex != -1 && t.openDevice iIndex != 0
          then some (t.openDevice iIndex) else none) := by
  have h16 : ¬ mCH341_MAX_NUMBER ≤ iIndex := Nat.not_le.mpr hidx
  by_cases hcond : (t.openDevice iIndex != -1 && t.openDevice iIndex != 0) = true <;>
    refine ⟨?_, ?_, ?_, ?_⟩ <;>
      simp [CH341ResetDevice, CH341OpenDevice, CH341CloseDevice, h16, hload, hopen,
            hclose, hcond, CompatState.slots_set_self]

/-- Claim C7, witness: the amended theorem with the stub target (open
handle 5) at slot 1. -/
theorem reset_close_then_open_witness :
    (CH341ResetDevice bindAll stubTarget initState 1).1 = (stubTarget.openDevice 1 != -1)
  ∧ (CH341ResetDevice bindAll stubTarget initState 1).2.1
      = (CH341OpenDevice bindAll stubTarget
           (CH341CloseDevice bindAll stubTarget initState 1).1 1).2.1
  ∧ (CH341ResetDevice bindAll stubTarget initState 1).2.2
      = [Event.closeDev 1, Event.openDev 1]
  ∧ ((CH341ResetDevice bindAll stubTarget initState 1).2.1.slots 1).handle
      = (if stubTarget.openDevice 1 != -1 && stubTarget.openDevice 1 != 0
          then some (stubTarget.openDevice 1) else none) :=
  reset_close_then_open bindAll stubTarget initState 1 (by decide) rfl rfl rfl
